import Mathlib

/-
Verification development for the libkrimes Kerberos client core.

Shallow embedding of the repository sources:
  * src/lib.rs        (record-marking codec; its Decoder is an
                       unimplemented stub and is modelled from the spec)
  * src/proto.rs      (response decoding, KRB-ERROR disambiguation)
  * src/proto/mod.rs  (pre-auth negotiation, key derivation, name model,
                       encrypted-payload handling)

Out-of-repository collaborators (the generic ASN.1 DER library, the
AES256-CTS-HMAC-SHA1-96 / PBKDF2 crypto primitives, and the constant
tables in crate::asn1::constants and crate::constants) are modelled
from the specification: DER decoders are taken as explicit function
parameters, crypto key derivation is an abstract record of its inputs,
and registry constants use their IANA values.

Rust `Result` is embedded as `Except`; code that can additionally
abort the process (`todo!()`, `.expect(..)`, `.unwrap()`) is embedded
in the `Outcome` type below, whose `panicked` constructor marks a
process abort.
-/

/-- Outcome of running a piece of Rust code that may return a value,
return a typed error, or abort the process with a panic. -/
inductive Outcome (ε : Type) (α : Type) where
  | ok (a : α)
  | err (e : ε)
  | panicked
deriving DecidableEq

namespace Outcome

/-- Sequencing of fallible Rust code: `?` propagates typed errors and a
panic aborts everything downstream. -/
def bind : Outcome ε α → (α → Outcome ε β) → Outcome ε β
  | .ok a, f => f a
  | .err e, _ => .err e
  | .panicked, _ => .panicked

/-- Lift an infallible-by-panic `Result` into `Outcome`. -/
def ofExcept : Except ε α → Outcome ε α
  | .ok a => .ok a
  | .error e => .err e

end Outcome

/-- A string is a valid IA5String when every character is 7-bit. -/
def isIA5 (s : String) : Bool := s.data.all (fun c => c.toNat ≤ 127)

/-- Modelled from the spec: construction of an ASN.1 IA5String (the
`der` collaborator library), failing on non-IA5 characters. -/
def Ia5String.new (s : String) : Except Unit String :=
  if isIA5 s then .ok s else .error ()

/-- Wire KerberosString: a newtype over an IA5 string
(crate::asn1::kerberos_string, shape as used by the code under src/). -/
structure KerberosString where
  s : String
deriving DecidableEq

/-- Wire Realm is a KerberosString (crate::asn1::realm). -/
abbrev Realm := KerberosString

/-- Wire PrincipalName: a name type code and the list of name components
(crate::asn1::principal_name, shape as used by the code under src/). -/
structure PrincipalName where
  name_type : Int
  name_string : List KerberosString
deriving DecidableEq

/-- Encryption types the code under src/ distinguishes
(crate::asn1::constants::encryption_types). -/
inductive EncryptionType where
  | AES256_CTS_HMAC_SHA1_96
  | AES128_CTS_HMAC_SHA1_96
  | AES128_CTS_HMAC_SHA256_128
  | AES256_CTS_HMAC_SHA384_192
  | DES3_CBC_SHA1
  | RC4_HMAC
deriving DecidableEq

/-- Modelled from the spec: the numeric encryption-type codes are fixed
by the Kerberos IANA registry (the crate::asn1::constants module is not
under src/); AES256-CTS-HMAC-SHA1-96 is value 18.  Any value outside
the modelled registry subset fails to convert. -/
def EncryptionType.try_from (n : Int) : Except Unit EncryptionType :=
  if n = 18 then .ok .AES256_CTS_HMAC_SHA1_96
  else if n = 17 then .ok .AES128_CTS_HMAC_SHA1_96
  else if n = 19 then .ok .AES128_CTS_HMAC_SHA256_128
  else if n = 20 then .ok .AES256_CTS_HMAC_SHA384_192
  else if n = 16 then .ok .DES3_CBC_SHA1
  else if n = 23 then .ok .RC4_HMAC
  else .error ()

/-- Pre-authentication data types the code under src/ distinguishes
(crate::asn1::constants::pa_data_types). -/
inductive PaDataType where
  | PaEncTimestamp
  | PaEtypeInfo2
  | PaFxFast
  | PaFxCookie
deriving DecidableEq

/-- Modelled from the spec: IANA pre-auth-data type codes
(crate::asn1::constants is not under src/): PA-ENC-TIMESTAMP = 2,
PA-ETYPE-INFO2 = 19, PA-FX-COOKIE = 133, PA-FX-FAST = 136. -/
def PaDataType.try_from (n : Nat) : Except Unit PaDataType :=
  if n = 2 then .ok .PaEncTimestamp
  else if n = 19 then .ok .PaEtypeInfo2
  else if n = 133 then .ok .PaFxCookie
  else if n = 136 then .ok .PaFxFast
  else .error ()

/-- Kerberos message types (crate::asn1::constants::message_types). -/
inductive KrbMessageType where
  | KrbAsReq
  | KrbAsRep
  | KrbTgsReq
  | KrbTgsRep
  | KrbApReq
  | KrbApRep
  | KrbError
deriving DecidableEq

/-- Modelled from the spec: RFC 4120 message type codes
(crate::asn1::constants is not under src/): AS-REQ 10, AS-REP 11,
TGS-REQ 12, TGS-REP 13, AP-REQ 14, AP-REP 15, KRB-ERROR 30. -/
def KrbMessageType.try_from (n : Nat) : Except Unit KrbMessageType :=
  if n = 10 then .ok .KrbAsReq
  else if n = 11 then .ok .KrbAsRep
  else if n = 12 then .ok .KrbTgsReq
  else if n = 13 then .ok .KrbTgsRep
  else if n = 14 then .ok .KrbApReq
  else if n = 15 then .ok .KrbApRep
  else if n = 30 then .ok .KrbError
  else .error ()

/-- KRB-ERROR codes the embedding distinguishes
(crate::asn1::constants::errors). -/
inductive KrbErrorCode where
  | KdcErrNone
  | KdcErrCPrincipalUnknown
  | KdcErrEtypeNosupp
  | KdcErrPreauthFailed
  | KdcErrPreauthRequired
  | KrbApErrSkew
  | KrbErrGeneric
deriving DecidableEq

/-- Modelled from the spec: RFC 4120 error codes
(crate::asn1::constants is not under src/): KDC_ERR_NONE 0,
KDC_ERR_C_PRINCIPAL_UNKNOWN 6, KDC_ERR_ETYPE_NOSUPP 14,
KDC_ERR_PREAUTH_FAILED 24, KDC_ERR_PREAUTH_REQUIRED 25,
KRB_AP_ERR_SKEW 37, KRB_ERR_GENERIC 60. -/
def KrbErrorCode.try_from (n : Int) : Except Unit KrbErrorCode :=
  if n = 0 then .ok .KdcErrNone
  else if n = 6 then .ok .KdcErrCPrincipalUnknown
  else if n = 14 then .ok .KdcErrEtypeNosupp
  else if n = 24 then .ok .KdcErrPreauthFailed
  else if n = 25 then .ok .KdcErrPreauthRequired
  else if n = 37 then .ok .KrbApErrSkew
  else if n = 60 then .ok .KrbErrGeneric
  else .error ()

/-- Wire PA-DATA item: a type code and an opaque DER value
(crate::asn1::pa_data, shape as used by the code under src/). -/
structure PaData where
  padata_type : Nat
  padata_value : List UInt8
deriving DecidableEq

/-- Wire ETYPE-INFO2-ENTRY (one element of crate::asn1::etype_info2's
sequence, shape as used by the code under src/). -/
structure ETypeInfo2Entry where
  etype : Int
  salt : Option KerberosString
  s2kparams : Option (List UInt8)
deriving DecidableEq

/-- Wire EncryptedData (crate::asn1::encrypted_data, shape as used by
the code under src/). -/
structure KdcEncryptedData where
  etype : Int
  kvno : Option Nat
  cipher : List UInt8
deriving DecidableEq

/-- Wire EncryptionKey (crate::asn1::encryption_key, shape as used by
the code under src/). -/
structure KdcEncryptionKey where
  key_type : Int
  key_value : List UInt8
deriving DecidableEq

/-- Error type of the core (crate::error::KrbError; the module is not
under src/ but every variant below is named by the code under src/). -/
inductive KrbError where
  | UnsupportedEncryption
  | InvalidEncryptionKey
  | InvalidEnumValue (tyName : String) (value : Int)
  | InvalidMessageType (found : Int) (expected : Int)
  | MissingPaData
  | DerDecodePaData
  | DerDecodeEtypeInfo2
  | DerDecodeEncKdcRepPart
  | PreauthInvalidS2KParams
  | NameNotPrincipal
deriving DecidableEq

/-- Modelled from the spec: AES-256 key length in bytes
(crate::constants is not under src/). -/
def AES_256_KEY_LEN : Nat := 32

/-- Modelled from the spec: the "standard iteration count" used when a
hint supplies none (crate::constants is not under src/); RFC 3962's
default PBKDF2 iteration count is 4096. -/
def RFC_PKBDF2_SHA1_ITER : Nat := 4096

/-- Modelled from the spec (section 4.3): an AES256-CTS-HMAC-SHA1-96 key
is a pure, deterministic function of passphrase, salt and the effective
iteration count; the crypto module is not under src/, so the key is
represented abstractly by those inputs. -/
structure Aes256Key where
  passphrase : String
  salt : String
  iterations : Nat
deriving DecidableEq

/-- Modelled from the spec: a wire iteration count of 0 has the protocol
meaning of 2^32 iterations and must be treated as such, not as zero. -/
def effective_iterations (i : Nat) : Nat := if i = 0 then 2 ^ 32 else i

/-- Modelled from the spec (section 4.3): string-to-key for
AES256-CTS-HMAC-SHA1-96 (crate::crypto is not under src/).  Pure and
total; the abstract key records exactly the derivation inputs. -/
def derive_key_aes256_cts_hmac_sha1_96 (passphrase salt : String)
    (iter_count : Nat) : Except KrbError Aes256Key :=
  .ok ⟨passphrase, salt, effective_iterations iter_count⟩

/-- Big-endian interpretation of the four s2kparams octets
(u32::from_be_bytes in the source). -/
def u32_from_be_bytes (l : List UInt8) : Nat :=
  l.foldl (fun a b => a * 256 + b.toNat) 0

/- ===================== src/proto/mod.rs ===================== -/

/-- Typed encrypted payload (src/proto/mod.rs, enum EncryptedData). -/
inductive EncryptedData where
  | Aes256CtsHmacSha196 (kvno : Option Nat) (data : List UInt8)
deriving DecidableEq

/-- Parsed pre-auth hint (src/proto/mod.rs, struct EtypeInfo2). -/
structure EtypeInfo2 where
  etype : EncryptionType
  salt : Option String
  s2kparams : Option (List UInt8)
deriving DecidableEq

/-- Parsed pre-auth negotiation state (src/proto/mod.rs,
struct PreauthData). -/
structure PreauthData where
  pa_fx_fast : Bool
  enc_timestamp : Bool
  pa_fx_cookie : Option (List UInt8)
  etype_info2 : List EtypeInfo2
deriving DecidableEq

/-- src/proto/mod.rs fn sort_cryptographic_strength, the comparator
handed to sort_unstable_by (Greater/Less/Equal as gt/lt/eq). -/
def sort_cryptographic_strength (a b : EtypeInfo2) : Ordering :=
  if a.etype = EncryptionType.AES256_CTS_HMAC_SHA1_96 then .gt
  else if b.etype = EncryptionType.AES256_CTS_HMAC_SHA1_96 then .lt
  else if a.etype = EncryptionType.AES128_CTS_HMAC_SHA1_96 then .gt
  else if b.etype = EncryptionType.AES128_CTS_HMAC_SHA1_96 then .lt
  else .eq

/-- Insert an element into a list sorted ascending with respect to a
comparator, placing it before the first element it does not exceed. -/
def insert_by (cmp : α → α → Ordering) (x : α) : List α → List α
  | [] => [x]
  | y :: ys =>
    match cmp x y with
    | .gt => y :: insert_by cmp x ys
    | _ => x :: y :: ys

/-- Model of Rust's slice::sort_unstable_by as insertion sort: it
produces a permutation ordered ascending with respect to the comparator
(the comparator above is not a total order, for which Rust leaves the
resulting order unspecified; insertion sort is one deterministic
refinement). -/
def sort_unstable_by (cmp : α → α → Ordering) : List α → List α
  | [] => []
  | x :: xs => insert_by cmp x (sort_unstable_by cmp xs)

/-- The inner loop over a decoded ETYPE-INFO2 sequence in
TryFrom for PreauthData (src/proto/mod.rs lines 386-407): entries
whose etype fails to convert or is unsupported are skipped, supported
(AES256-CTS-HMAC-SHA1-96) entries are retained. -/
def collect_etype_info2 (entries : List ETypeInfo2Entry) : List EtypeInfo2 :=
  entries.filterMap (fun einfo2 =>
    match EncryptionType.try_from einfo2.etype with
    | .error _ => none
    | .ok etype =>
      match etype with
      | .AES256_CTS_HMAC_SHA1_96 =>
        some ⟨etype, einfo2.salt.map (fun k => k.s), einfo2.s2kparams⟩
      | _ => none)

/-- The accumulation loop over the PA-DATA vector shared verbatim by
TryFrom for PreauthData (src/proto/mod.rs lines 369-415) and
TryFrom for KerberosPaRep (src/proto.rs lines 392-439).  The DER
decoder for ETYPE-INFO2 sequences (out-of-scope ASN.1 collaborator) is
the parameter eiFromDer. -/
def PreauthData.fold
    (eiFromDer : List UInt8 → Except Unit (List ETypeInfo2Entry)) :
    List PaData → PreauthData → Except KrbError PreauthData
  | [], acc => .ok acc
  | pd :: rest, acc =>
    match PaDataType.try_from pd.padata_type with
    | .error _ => PreauthData.fold eiFromDer rest acc
    | .ok padt =>
      match padt with
      | .PaEncTimestamp =>
        PreauthData.fold eiFromDer rest { acc with enc_timestamp := true }
      | .PaEtypeInfo2 =>
        match eiFromDer pd.padata_value with
        | .error _ => .error .DerDecodeEtypeInfo2
        | .ok einfo2_sequence =>
          PreauthData.fold eiFromDer rest
            { acc with etype_info2 :=
                acc.etype_info2 ++ collect_etype_info2 einfo2_sequence }
      | .PaFxFast =>
        PreauthData.fold eiFromDer rest { acc with pa_fx_fast := true }
      | .PaFxCookie =>
        PreauthData.fold eiFromDer rest
          { acc with pa_fx_cookie := some pd.padata_value }

/-- TryFrom Vec PaData for PreauthData (src/proto/mod.rs lines
358-427): fold the PA-DATA items, then sort the hints by cryptographic
strength. -/
def PreauthData.try_from
    (eiFromDer : List UInt8 → Except Unit (List ETypeInfo2Entry))
    (pavec : List PaData) : Except KrbError PreauthData :=
  (PreauthData.fold eiFromDer pavec ⟨false, false, none, []⟩).map
    (fun acc =>
      { acc with etype_info2 :=
          sort_unstable_by sort_cryptographic_strength acc.etype_info2 })

/-- Derived long-term key (src/proto/mod.rs, enum DerivedKey). -/
inductive DerivedKey where
  | Aes256CtsHmacSha196 (k : Aes256Key) (i : Nat) (s : String)
deriving DecidableEq

/-- The key-material field of a DerivedKey. -/
def DerivedKey.k : DerivedKey → Aes256Key
  | .Aes256CtsHmacSha196 k _ _ => k

/-- The iteration-count field of a DerivedKey. -/
def DerivedKey.i : DerivedKey → Nat
  | .Aes256CtsHmacSha196 _ i _ => i

/-- The salt field of a DerivedKey. -/
def DerivedKey.s : DerivedKey → String
  | .Aes256CtsHmacSha196 _ _ s => s

/-- The hint filter in DerivedKey::from_encrypted_reply
(matches! on EncryptionType::AES256_CTS_HMAC_SHA1_96). -/
def is_aes256_hint (e : EtypeInfo2) : Bool :=
  match e.etype with
  | .AES256_CTS_HMAC_SHA1_96 => true
  | _ => false

/-- The hint selection in DerivedKey::from_encrypted_reply
(src/proto/mod.rs lines 85-92): the first hint of the (optional) slice
whose etype is AES256-CTS-HMAC-SHA1-96. -/
def selected_etype_info2 (pa_data_etype_info2 : Option (List EtypeInfo2)) :
    Option EtypeInfo2 :=
  ((pa_data_etype_info2.getD []).filter is_aes256_hint).head?

/-- DerivedKey::from_encrypted_reply (src/proto/mod.rs lines 72-131):
select the first AES256 hint; a selected hint's s2kparams must be
exactly 4 octets (else PreauthInvalidS2KParams); salt defaults to
realm ++ username and the iteration count to the RFC default. -/
def DerivedKey.from_encrypted_reply (encrypted_data : EncryptedData)
    (pa_data_etype_info2 : Option (List EtypeInfo2))
    (realm username passphrase : String) : Except KrbError DerivedKey :=
  match encrypted_data with
  | .Aes256CtsHmacSha196 _ _ =>
    let maybe_etype_info2 := selected_etype_info2 pa_data_etype_info2
    let salt_iter : Except KrbError (Option String × Option Nat) :=
      match maybe_etype_info2 with
      | some etype_info2 =>
        match etype_info2.s2kparams with
        | some s2kparams =>
          if s2kparams.length = 4 then
            .ok (etype_info2.salt, some (u32_from_be_bytes s2kparams))
          else
            .error .PreauthInvalidS2KParams
        | none => .ok (etype_info2.salt, none)
      | none => .ok (none, none)
    match salt_iter with
    | .error e => .error e
    | .ok (salt_opt, iter_opt) =>
      let salt := salt_opt.getD (realm ++ username)
      let iter_count := iter_opt.getD RFC_PKBDF2_SHA1_ITER
      (derive_key_aes256_cts_hmac_sha1_96 passphrase salt iter_count).map
        (fun k => DerivedKey.Aes256CtsHmacSha196 k iter_count salt)

/-- DerivedKey::from_etype_info2 (src/proto/mod.rs lines 134-175):
derive from a single hint; salt defaults to realm ++ username;
s2kparams, when present, must be exactly 4 octets
(else PreauthInvalidS2KParams); an unsupported etype is
UnsupportedEncryption. -/
def DerivedKey.from_etype_info2 (etype_info2 : EtypeInfo2)
    (realm username passphrase : String) : Except KrbError DerivedKey :=
  let salt := etype_info2.salt.getD (realm ++ username)
  match etype_info2.etype with
  | .AES256_CTS_HMAC_SHA1_96 =>
    let iter_res : Except KrbError Nat :=
      match etype_info2.s2kparams with
      | some s2kparams =>
        if s2kparams.length = 4 then .ok (u32_from_be_bytes s2kparams)
        else .error .PreauthInvalidS2KParams
      | none => .ok RFC_PKBDF2_SHA1_ITER
    match iter_res with
    | .error e => .error e
    | .ok iter_count =>
      (derive_key_aes256_cts_hmac_sha1_96 passphrase salt iter_count).map
        (fun k => DerivedKey.Aes256CtsHmacSha196 k iter_count salt)
  | _ => .error .UnsupportedEncryption

/-- Session key from the decrypted reply (src/proto/mod.rs,
enum SessionKey). -/
inductive SessionKey where
  | Aes256CtsHmacSha196 (k : List UInt8)
deriving DecidableEq

/-- TryFrom KdcEncryptionKey for SessionKey (src/proto/mod.rs lines
618-637): only AES256-CTS-HMAC-SHA1-96 with a 32-byte key is accepted. -/
def SessionKey.try_from (kdc_key : KdcEncryptionKey) :
    Except KrbError SessionKey :=
  match EncryptionType.try_from kdc_key.key_type with
  | .error _ => .error .UnsupportedEncryption
  | .ok key_type =>
    match key_type with
    | .AES256_CTS_HMAC_SHA1_96 =>
      if kdc_key.key_value.length = AES_256_KEY_LEN then
        .ok (.Aes256CtsHmacSha196 kdc_key.key_value)
      else .error .InvalidEncryptionKey
    | _ => .error .UnsupportedEncryption

/-- TryFrom KdcEncryptedData for EncryptedData (src/proto/mod.rs lines
517-534 and identically src/proto.rs lines 477-494): only
AES256-CTS-HMAC-SHA1-96 is accepted. -/
def EncryptedData.try_from (enc_data : KdcEncryptedData) :
    Except KrbError EncryptedData :=
  match EncryptionType.try_from enc_data.etype with
  | .error _ => .error .UnsupportedEncryption
  | .ok etype =>
    match etype with
    | .AES256_CTS_HMAC_SHA1_96 =>
      .ok (.Aes256CtsHmacSha196 enc_data.kvno enc_data.cipher)
    | _ => .error .UnsupportedEncryption

/-- Principal name model (src/proto/mod.rs, enum Name). -/
inductive Name where
  | Principal (name : String) (realm : String)
  | SrvInst (service : String) (realm : String)
  | SrvHst (service : String) (host : String) (realm : String)
deriving DecidableEq

/-- All string components of a Name are valid IA5 strings. -/
def Name.validIA5 : Name → Bool
  | .Principal name realm => isIA5 name && isIA5 realm
  | .SrvInst service realm => isIA5 service && isIA5 realm
  | .SrvHst service host realm => isIA5 service && isIA5 host && isIA5 realm

/-- Ia5String::new(..).unwrap() as used by the Name conversions: a
non-IA5 component aborts the process. -/
def ia5_unwrap (s : String) : Outcome KrbError String :=
  match Ia5String.new s with
  | .ok t => .ok t
  | .error _ => .panicked

/-- TryInto (PrincipalName, Realm) for Name (src/proto/mod.rs lines
743-793): name types 1, 2, 3 with one, one, two name components. -/
def Name.try_into_wire : Name → Outcome KrbError (PrincipalName × Realm)
  | .Principal name realm =>
    (ia5_unwrap name).bind fun n =>
    (ia5_unwrap realm).bind fun r =>
    .ok (⟨1, [⟨n⟩]⟩, ⟨r⟩)
  | .SrvInst service realm =>
    (ia5_unwrap service).bind fun sv =>
    (ia5_unwrap realm).bind fun r =>
    .ok (⟨2, [⟨sv⟩]⟩, ⟨r⟩)
  | .SrvHst service host realm =>
    (ia5_unwrap service).bind fun sv =>
    (ia5_unwrap host).bind fun h =>
    (ia5_unwrap realm).bind fun r =>
    .ok (⟨3, [⟨sv⟩, ⟨h⟩]⟩, ⟨r⟩)

/-- TryFrom (PrincipalName, Realm) for Name (src/proto/mod.rs lines
829-861): .get(..).unwrap() on a missing component and the todo!() on
an unknown name type both abort the process. -/
def Name.try_from_wire (pr : PrincipalName × Realm) : Outcome KrbError Name :=
  let realm := pr.2.s
  match pr.1.name_type with
  | 1 =>
    match pr.1.name_string.get? 0 with
    | some ks => .ok (.Principal ks.s realm)
    | none => .panicked
  | 2 =>
    match pr.1.name_string.get? 0 with
    | some ks => .ok (.SrvInst ks.s realm)
    | none => .panicked
  | 3 =>
    match pr.1.name_string.get? 0, pr.1.name_string.get? 1 with
    | some ks, some kh => .ok (.SrvHst ks.s kh.s realm)
    | _, _ => .panicked
  | _ => .panicked

/-- Wire EncKDCRepPart (crate::asn1::enc_kdc_rep_part, shape as used by
the code under src/; KerberosTime instants are abstracted as Nat and
the ticket-flags FlagSet as its raw bits). -/
structure EncKdcRepPart where
  key : KdcEncryptionKey
  server_name : PrincipalName
  server_realm : Realm
  nonce : Nat
  flags : Nat
  key_expiration : Option Nat
  start_time : Option Nat
  renew_till : Option Nat
  auth_time : Nat
  end_time : Nat
deriving DecidableEq

/-- Decrypted KDC reply body (src/proto/mod.rs, struct KdcReplyPart). -/
structure KdcReplyPart where
  key : SessionKey
  nonce : Nat
  key_expiration : Option Nat
  flags : Nat
  auth_time : Nat
  start_time : Option Nat
  end_time : Nat
  renew_until : Option Nat
  server : Name
deriving DecidableEq

/-- TryFrom EncKdcRepPart for KdcReplyPart (src/proto/mod.rs lines
585-616). -/
def KdcReplyPart.try_from (p : EncKdcRepPart) : Outcome KrbError KdcReplyPart :=
  (Outcome.ofExcept (SessionKey.try_from p.key)).bind fun key =>
  (Name.try_from_wire (p.server_name, p.server_realm)).bind fun server =>
  .ok ⟨key, p.nonce, p.key_expiration, p.flags, p.auth_time,
       p.start_time, p.end_time, p.renew_till, server⟩

/-- Wire tagged EncKDCRepPart (crate::asn1::tagged_enc_kdc_rep_part,
shape as used by the code under src/): the same inner structure under
either the AS-REP-part or TGS-REP-part application tag. -/
inductive TaggedEncKdcRepPart where
  | EncAsRepPart (p : EncKdcRepPart)
  | EncTgsRepPart (p : EncKdcRepPart)
deriving DecidableEq

/-- The inner part, identical under both tags (the source's or-pattern
match in decrypt_enc_kdc_rep; the RFC-mandated relaxed tag check). -/
def TaggedEncKdcRepPart.part : TaggedEncKdcRepPart → EncKdcRepPart
  | .EncAsRepPart p => p
  | .EncTgsRepPart p => p

/-- EncryptedData::decrypt_data (src/proto/mod.rs lines 466-473); the
AES256-CTS-HMAC-SHA1-96 decrypt primitive (crate::crypto, not under
src/) is the parameter decAes. -/
def EncryptedData.decrypt_data
    (decAes : Aes256Key → List UInt8 → Int → Except KrbError (List UInt8))
    (self : EncryptedData) (base_key : DerivedKey) (key_usage : Int) :
    Except KrbError (List UInt8) :=
  match self, base_key with
  | .Aes256CtsHmacSha196 _ data, .Aes256CtsHmacSha196 k _ _ =>
    decAes k data key_usage

/-- EncryptedData::decrypt_enc_kdc_rep (src/proto/mod.rs lines
475-495): decrypt with key usage 3, DER-decode (parameter tFromDer, the
out-of-scope ASN.1 collaborator), accept either tag variant. -/
def EncryptedData.decrypt_enc_kdc_rep
    (decAes : Aes256Key → List UInt8 → Int → Except KrbError (List UInt8))
    (tFromDer : List UInt8 → Except Unit TaggedEncKdcRepPart)
    (self : EncryptedData) (base_key : DerivedKey) :
    Outcome KrbError KdcReplyPart :=
  match EncryptedData.decrypt_data decAes self base_key 3 with
  | .error e => .err e
  | .ok data =>
    match tFromDer data with
    | .error _ => .err .DerDecodeEncKdcRepPart
    | .ok tagged_kdc_enc_part =>
      KdcReplyPart.try_from tagged_kdc_enc_part.part

/- ===================== src/proto.rs ===================== -/

namespace ProtoRs

/-- Wire KDC-REP (crate::asn1::kdc_rep, shape as used by the code under
src/proto.rs). -/
structure KdcRep where
  pvno : Int
  msg_type : Nat
  crealm : KerberosString
  cname : PrincipalName
  enc_part : KdcEncryptedData
deriving DecidableEq

/-- Modelled from the spec: Into String for PrincipalName lives in the
asn1 module, not under src/; rendered as the slash-joined components. -/
def principal_name_to_string (p : PrincipalName) : String :=
  String.intercalate "/" (p.name_string.map (fun k => k.s))

/-- Typed AS-REP (src/proto.rs, struct KerberosAsRep). -/
structure KerberosAsRep where
  client_realm : String
  client_name : String
  enc_part : EncryptedData
deriving DecidableEq

/-- TryFrom KdcRep for KerberosAsRep (src/proto.rs lines 269-305).
The pvno check is `if rep.pvno != 5 { todo!(); }` in the source: a
non-5 pvno aborts the process. -/
def KerberosAsRep.try_from (rep : KdcRep) : Outcome KrbError KerberosAsRep :=
  if rep.pvno ≠ 5 then .panicked
  else
    match KrbMessageType.try_from rep.msg_type with
    | .error _ => .err (.InvalidEnumValue "KrbMessageType" (rep.msg_type : Int))
    | .ok msg_type =>
      match msg_type with
      | .KrbAsRep =>
        match EncryptedData.try_from rep.enc_part with
        | .error e => .err e
        | .ok enc_part =>
          .ok ⟨rep.crealm.s, principal_name_to_string rep.cname, enc_part⟩
      | _ => .err (.InvalidMessageType (rep.msg_type : Int) 11)

/-- Typed TGS-REP (src/proto.rs, struct KerberosTgsRep, empty). -/
inductive KerberosTgsRep where
  | mk
deriving DecidableEq

/-- TryFrom KdcRep for KerberosTgsRep (src/proto.rs lines 307-331);
same todo!() panic on a non-5 pvno. -/
def KerberosTgsRep.try_from (rep : KdcRep) : Outcome KrbError KerberosTgsRep :=
  if rep.pvno ≠ 5 then .panicked
  else
    match KrbMessageType.try_from rep.msg_type with
    | .error _ => .err (.InvalidEnumValue "KrbMessageType" (rep.msg_type : Int))
    | .ok msg_type =>
      match msg_type with
      | .KrbTgsRep => .ok .mk
      | _ => .err (.InvalidMessageType (rep.msg_type : Int) 13)

/-- Wire KRB-ERROR (crate::asn1::krb_error::KrbError, shape as used by
the code under src/proto.rs; named Asn1KrbError here to keep it apart
from the crate error enum). -/
structure Asn1KrbError where
  pvno : Int
  msg_type : Nat
  error_code : Int
  error_data : Option (List UInt8)
deriving DecidableEq

/-- Parsed pre-auth challenge (src/proto.rs, struct KerberosPaRep). -/
structure KerberosPaRep where
  pa_fx_fast : Bool
  enc_timestamp : Bool
  pa_fx_cookie : Option (List UInt8)
  etype_info2 : List EtypeInfo2
deriving DecidableEq

/-- TryFrom Vec PaData for KerberosPaRep (src/proto.rs lines 381-448):
the same accumulation loop as PreauthData in src/proto/mod.rs, without
the final sort. -/
def KerberosPaRep.try_from
    (eiFromDer : List UInt8 → Except Unit (List ETypeInfo2Entry))
    (pavec : List PaData) : Except KrbError KerberosPaRep :=
  (PreauthData.fold eiFromDer pavec ⟨false, false, none, []⟩).map
    (fun a => ⟨a.pa_fx_fast, a.enc_timestamp, a.pa_fx_cookie, a.etype_info2⟩)

/-- KRB-ERROR disambiguation result (src/proto.rs, enum KerberosErrRep). -/
inductive KerberosErrRep where
  | Err (code : KrbErrorCode)
  | Pa (rep : KerberosPaRep)
deriving DecidableEq

/-- TryFrom crate::asn1::krb_error::KrbError for KerberosErrRep
(src/proto.rs lines 333-379).  The MethodData DER decoder (out-of-scope
ASN.1 collaborator) is the parameter mdFromDer.  The pvno check is a
todo!() panic, as in the source. -/
def KerberosErrRep.try_from
    (mdFromDer : List UInt8 → Except Unit (List PaData))
    (eiFromDer : List UInt8 → Except Unit (List ETypeInfo2Entry))
    (rep : Asn1KrbError) : Outcome KrbError KerberosErrRep :=
  if rep.pvno ≠ 5 then .panicked
  else
    match KrbMessageType.try_from rep.msg_type with
    | .error _ => .err (.InvalidEnumValue "KrbMessageType" (rep.msg_type : Int))
    | .ok msg_type =>
      match msg_type with
      | .KrbError =>
        match KrbErrorCode.try_from rep.error_code with
        | .error _ => .err (.InvalidEnumValue "KrbErrorCode" rep.error_code)
        | .ok error_code =>
          match error_code with
          | .KdcErrPreauthRequired =>
            match rep.error_data with
            | none => .err .MissingPaData
            | some edata =>
              match mdFromDer edata with
              | .error _ => .err .DerDecodePaData
              | .ok pavec =>
                match KerberosPaRep.try_from eiFromDer pavec with
                | .error e => .err e
                | .ok pa_rep => .ok (.Pa pa_rep)
          | err_code => .ok (.Err err_code)
      | _ => .err (.InvalidMessageType (rep.msg_type : Int) 30)

/-- Decoded response union (src/proto.rs, enum KerberosResponse). -/
inductive KerberosResponse where
  | AsRep (r : KerberosAsRep)
  | TgsRep (r : KerberosTgsRep)
  | PaRep (r : KerberosPaRep)
  | ErrRep (c : KrbErrorCode)
deriving DecidableEq

/-- DER tag as read by the Decode impl (der::Tag, application class
with a constructed flag and a tag number; every other class is
collapsed into `other`). -/
inductive Tag where
  | application (constructed : Bool) (number : Nat)
  | other
deriving DecidableEq

/-- der::Error outcomes of the Decode impl for KerberosResponse. -/
inductive DerError where
  | tagUnexpected
  | decodeFailed
deriving DecidableEq

/-- Decode for KerberosResponse (src/proto.rs lines 150-196): dispatch
on the outer application tag (11 AS-REP, 13 TGS-REP, 30 KRB-ERROR);
the inner DER decoders are parameters, and the source's
.expect(..) calls turn every inner conversion failure into a process
abort. -/
def KerberosResponse.decode
    (decodeKdcRep : List UInt8 → Except Unit KdcRep)
    (decodeKrbError : List UInt8 → Except Unit Asn1KrbError)
    (mdFromDer : List UInt8 → Except Unit (List PaData))
    (eiFromDer : List UInt8 → Except Unit (List ETypeInfo2Entry))
    (tag : Tag) (body : List UInt8) : Outcome DerError KerberosResponse :=
  match tag with
  | .application true 11 =>
    match decodeKdcRep body with
    | .error _ => .err .decodeFailed
    | .ok kdc_rep =>
      match KerberosAsRep.try_from kdc_rep with
      | .ok as_rep => .ok (.AsRep as_rep)
      | _ => .panicked
  | .application true 13 =>
    match decodeKdcRep body with
    | .error _ => .err .decodeFailed
    | .ok kdc_rep =>
      match KerberosTgsRep.try_from kdc_rep with
      | .ok tgs_rep => .ok (.TgsRep tgs_rep)
      | _ => .panicked
  | .application true 30 =>
    match decodeKrbError body with
    | .error _ => .err .decodeFailed
    | .ok err_msg =>
      match KerberosErrRep.try_from mdFromDer eiFromDer err_msg with
      | .ok (.Pa pa_rep) => .ok (.PaRep pa_rep)
      | .ok (.Err err_code) => .ok (.ErrRep err_code)
      | _ => .panicked
  | _ => .err .tagUnexpected

end ProtoRs

/- ===================== src/lib.rs (record-marking codec) ===================== -/

/-- Frame errors of the record-marking codec (spec section 7). -/
inductive FrameError where
  | FrameTooLarge
deriving DecidableEq

/-- Default maximum fragment size (src/lib.rs, DEFAULT_MAX_SIZE). -/
def DEFAULT_MAX_SIZE : Nat := 32 * 1024

/-- The 32-bit big-endian record-marking header (RFC 1831 section 10). -/
def frame_header (b0 b1 b2 b3 : UInt8) : Nat :=
  ((b0.toNat * 256 + b1.toNat) * 256 + b2.toNat) * 256 + b3.toNat

/-- The 31-bit fragment length encoded in a header. -/
def frame_len (b0 b1 b2 b3 : UInt8) : Nat :=
  frame_header b0 b1 b2 b3 % 2 ^ 31

/-- The last-fragment flag of a header (its highest-order bit). -/
def frame_is_last (b0 b1 b2 b3 : UInt8) : Bool :=
  decide (2 ^ 31 ≤ frame_header b0 b1 b2 b3)

/-- Modelled from the spec: the Decoder impl for KerberosTcpCodec in
src/lib.rs is an unimplemented stub (todo!()); spec section 4.5
supplies the intended read algorithm, embedded here.  Arguments: the
configured maximum, the accumulation buffer carried across calls, and
the input buffer.  Result on success: either a complete record
(some bytes) or none meaning "need more bytes", together with the new
accumulation state and the unconsumed input bytes. -/
def codec_decode (max_size : Nat) (acc : List UInt8) :
    (buf : List UInt8) →
    Except FrameError (Option (List UInt8) × List UInt8 × List UInt8)
  | b0 :: b1 :: b2 :: b3 :: rest =>
    if max_size < frame_len b0 b1 b2 b3 then .error .FrameTooLarge
    else if rest.length < frame_len b0 b1 b2 b3 then
      .ok (none, acc, b0 :: b1 :: b2 :: b3 :: rest)
    else
      if frame_is_last b0 b1 b2 b3 then
        .ok (some (acc ++ rest.take (frame_len b0 b1 b2 b3)), [],
             rest.drop (frame_len b0 b1 b2 b3))
      else
        codec_decode max_size (acc ++ rest.take (frame_len b0 b1 b2 b3))
          (rest.drop (frame_len b0 b1 b2 b3))
  | buf => .ok (none, acc, buf)
termination_by buf => buf.length
decreasing_by
  simp only [List.length_drop, List.length_cons]
  omega

/- ===================== Theorems ===================== -/

deriving instance DecidableEq for Except

/-- Only registry value 18 converts to AES256-CTS-HMAC-SHA1-96. -/
theorem EncryptionType.try_from_ne_aes256 {n : Int} (hn : n ≠ 18) :
    ∀ t, EncryptionType.try_from n = .ok t →
      t ≠ EncryptionType.AES256_CTS_HMAC_SHA1_96 := by
  intro t ht hcontra
  subst hcontra
  unfold EncryptionType.try_from at ht
  split_ifs at ht <;> simp_all

/-- Claim C8: for every wire-level EncryptedData or session
EncryptionKey whose declared encryption type is anything other than
AES256-CTS-HMAC-SHA1-96 (value 18), conversion into the typed
EncryptedData/SessionKey fails with the UnsupportedEncryption error;
no other encryption type is silently accepted in a position requiring
one concrete algorithm. -/
theorem c8_non_aes256_always_rejected :
    (∀ enc_data : KdcEncryptedData, enc_data.etype ≠ 18 →
      EncryptedData.try_from enc_data = .error .UnsupportedEncryption) ∧
    (∀ kdc_key : KdcEncryptionKey, kdc_key.key_type ≠ 18 →
      SessionKey.try_from kdc_key = .error .UnsupportedEncryption) := by
  constructor
  · intro enc_data hn
    unfold EncryptedData.try_from
    cases h : EncryptionType.try_from enc_data.etype with
    | error e => rfl
    | ok t =>
      have hne := EncryptionType.try_from_ne_aes256 hn t h
      cases t <;> first | exact absurd rfl hne | rfl
  · intro kdc_key hn
    unfold SessionKey.try_from
    cases h : EncryptionType.try_from kdc_key.key_type with
    | error e => rfl
    | ok t =>
      have hne := EncryptionType.try_from_ne_aes256 hn t h
      cases t <;> first | exact absurd rfl hne | rfl

/-- Witness for C8 at encryption types 17 (AES128-CTS-HMAC-SHA1-96) and
23 (RC4-HMAC). -/
theorem c8_witness :
    EncryptedData.try_from ⟨17, none, []⟩ = .error .UnsupportedEncryption ∧
    SessionKey.try_from ⟨23, []⟩ = .error .UnsupportedEncryption :=
  ⟨c8_non_aes256_always_rejected.1 ⟨17, none, []⟩ (by decide),
   c8_non_aes256_always_rejected.2 ⟨23, []⟩ (by decide)⟩

/-- Claim C4: for every AES256-CTS-HMAC-SHA1-96 hint whose s2kparams
field is exactly the four octets [0,0,0,0], key derivation interprets
the iteration count as 2^32 = 4294967296, not as 0: the abstract key
records 4294967296 PBKDF2 iterations (the stored wire iteration count
is the raw 0). -/
theorem c4_zero_s2kparams_means_two_pow_32
    (salt_opt : Option String) (realm username passphrase : String) :
    DerivedKey.from_etype_info2
        ⟨.AES256_CTS_HMAC_SHA1_96, salt_opt, some [0, 0, 0, 0]⟩
        realm username passphrase
      = .ok (.Aes256CtsHmacSha196
          ⟨passphrase, salt_opt.getD (realm ++ username), 4294967296⟩ 0
          (salt_opt.getD (realm ++ username))) ∧
    DerivedKey.from_encrypted_reply (.Aes256CtsHmacSha196 none [])
        (some [⟨.AES256_CTS_HMAC_SHA1_96, salt_opt, some [0, 0, 0, 0]⟩])
        realm username passphrase
      = .ok (.Aes256CtsHmacSha196
          ⟨passphrase, salt_opt.getD (realm ++ username), 4294967296⟩ 0
          (salt_opt.getD (realm ++ username))) :=
  ⟨rfl, rfl⟩

/-- C5 counterexample: a hint with an unsupported algorithm
(AES128-CTS-HMAC-SHA1-96) and malformed (3-octet) s2kparams makes
DerivedKey::from_etype_info2 return UnsupportedEncryption, not the
PreauthInvalidS2KParams error the claim requires for every hint. -/
theorem c5_counterexample :
    DerivedKey.from_etype_info2
        ⟨.AES128_CTS_HMAC_SHA1_96, none, some [0, 0, 0]⟩
        "EXAMPLE.COM" "alice" "password"
      = .error .UnsupportedEncryption ∧
    KrbError.UnsupportedEncryption ≠ KrbError.PreauthInvalidS2KParams :=
  ⟨rfl, by decide⟩

/-- Claim C5 (amended): for every hint with the supported algorithm
(AES256-CTS-HMAC-SHA1-96) whose s2kparams is present with a length
other than 4, DerivedKey::from_etype_info2 returns
PreauthInvalidS2KParams, and DerivedKey::from_encrypted_reply returns
PreauthInvalidS2KParams whenever such a hint is the selected one;
there is never a silent fallback to the default iteration count. -/
theorem c5_invalid_s2kparams_hard_error
    (info : EtypeInfo2) (s2k : List UInt8) (infos : List EtypeInfo2)
    (kvno : Option Nat) (data : List UInt8)
    (realm username passphrase : String)
    (he : info.etype = .AES256_CTS_HMAC_SHA1_96)
    (hs : info.s2kparams = some s2k) (hl : s2k.length ≠ 4) :
    DerivedKey.from_etype_info2 info realm username passphrase
      = .error .PreauthInvalidS2KParams ∧
    (selected_etype_info2 (some infos) = some info →
      DerivedKey.from_encrypted_reply (.Aes256CtsHmacSha196 kvno data)
        (some infos) realm username passphrase
        = .error .PreauthInvalidS2KParams) := by
  constructor
  · simp [DerivedKey.from_etype_info2, he, hs, hl]
  · intro hsel
    simp [DerivedKey.from_encrypted_reply, hsel, hs, hl]

/-- Witness for C5 (amended) at a 3-octet s2kparams AES256 hint. -/
theorem c5_witness :
    DerivedKey.from_etype_info2
        ⟨.AES256_CTS_HMAC_SHA1_96, none, some [1, 2, 3]⟩ "R" "u" "p"
      = .error .PreauthInvalidS2KParams ∧
    DerivedKey.from_encrypted_reply (.Aes256CtsHmacSha196 none [])
        (some [⟨.AES256_CTS_HMAC_SHA1_96, none, some [1, 2, 3]⟩]) "R" "u" "p"
      = .error .PreauthInvalidS2KParams :=
  ⟨(c5_invalid_s2kparams_hard_error
      ⟨.AES256_CTS_HMAC_SHA1_96, none, some [1, 2, 3]⟩ [1, 2, 3]
      [⟨.AES256_CTS_HMAC_SHA1_96, none, some [1, 2, 3]⟩] none [] "R" "u" "p"
      rfl rfl (by decide)).1,
   (c5_invalid_s2kparams_hard_error
      ⟨.AES256_CTS_HMAC_SHA1_96, none, some [1, 2, 3]⟩ [1, 2, 3]
      [⟨.AES256_CTS_HMAC_SHA1_96, none, some [1, 2, 3]⟩] none [] "R" "u" "p"
      rfl rfl (by decide)).2 rfl⟩

/-- C6 counterexample: a selected hint without a salt but with
s2kparams [0,0,1,0] derives with the default salt yet with iteration
count 256, not the standard default 4096, contradicting the claim's
grouping of "selected hint without a salt" with the all-defaults case. -/
theorem c6_counterexample :
    DerivedKey.from_encrypted_reply (.Aes256CtsHmacSha196 none [])
        (some [⟨.AES256_CTS_HMAC_SHA1_96, none, some [0, 0, 1, 0]⟩])
        "EXAMPLE.COM" "alice" "password"
      = .ok (.Aes256CtsHmacSha196 ⟨"password", "EXAMPLE.COMalice", 256⟩ 256
          "EXAMPLE.COMalice") ∧
    RFC_PKBDF2_SHA1_ITER = 4096 ∧ (256 : Nat) ≠ 4096 := by
  refine ⟨by decide, rfl, by decide⟩

/-- Claim C6 (amended): in DerivedKey::from_encrypted_reply the salt is
the selected hint's salt when present and realm ++ username otherwise,
and the iteration count is the selected hint's (well-formed) s2kparams
value when present and the standard default otherwise; when no
supported hint is available at all, derivation succeeds with both
defaults. -/
theorem c6_salt_and_iteration_fallback
    (kvno : Option Nat) (data : List UInt8) (pa : Option (List EtypeInfo2))
    (realm username passphrase : String) :
    (∀ dk, DerivedKey.from_encrypted_reply (.Aes256CtsHmacSha196 kvno data)
        pa realm username passphrase = .ok dk →
      dk.s = ((selected_etype_info2 pa).bind EtypeInfo2.salt).getD
               (realm ++ username) ∧
      dk.i = (match (selected_etype_info2 pa).bind EtypeInfo2.s2kparams with
              | some p => u32_from_be_bytes p
              | none => RFC_PKBDF2_SHA1_ITER) ∧
      dk.k = ⟨passphrase, dk.s, effective_iterations dk.i⟩) ∧
    (selected_etype_info2 pa = none →
      DerivedKey.from_encrypted_reply (.Aes256CtsHmacSha196 kvno data)
          pa realm username passphrase
        = .ok (.Aes256CtsHmacSha196
            ⟨passphrase, realm ++ username, RFC_PKBDF2_SHA1_ITER⟩
            RFC_PKBDF2_SHA1_ITER (realm ++ username))) := by
  constructor
  · intro dk h
    cases hsel : selected_etype_info2 pa with
    | none =>
      simp only [DerivedKey.from_encrypted_reply, hsel,
                 derive_key_aes256_cts_hmac_sha1_96, Except.map,
                 Except.ok.injEq] at h
      subst h
      simp [DerivedKey.s, DerivedKey.i, DerivedKey.k]
    | some info =>
      cases hs2 : info.s2kparams with
      | none =>
        simp only [DerivedKey.from_encrypted_reply, hsel, hs2,
                   derive_key_aes256_cts_hmac_sha1_96, Except.map,
                   Except.ok.injEq] at h
        subst h
        simp [DerivedKey.s, DerivedKey.i, DerivedKey.k, hs2]
      | some p =>
        by_cases hlen : p.length = 4
        · simp only [DerivedKey.from_encrypted_reply, hsel, hs2, hlen,
                     if_true, derive_key_aes256_cts_hmac_sha1_96, Except.map,
                     Except.ok.injEq] at h
          subst h
          simp [DerivedKey.s, DerivedKey.i, DerivedKey.k, hs2]
        · simp [DerivedKey.from_encrypted_reply, hsel, hs2, hlen] at h
  · intro hsel
    simp only [DerivedKey.from_encrypted_reply, hsel,
               derive_key_aes256_cts_hmac_sha1_96, Except.map]
    rfl

/-- Witness for C6 (amended): a selected hint carrying both salt and a
well-formed iteration count, and the no-hint fallback. -/
theorem c6_witness :
    ((DerivedKey.Aes256CtsHmacSha196 ⟨"p", "S", 1⟩ 1 "S").s = "S" ∧
     (DerivedKey.Aes256CtsHmacSha196 ⟨"p", "S", 1⟩ 1 "S").i = 1 ∧
     (DerivedKey.Aes256CtsHmacSha196 ⟨"p", "S", 1⟩ 1 "S").k = ⟨"p", "S", 1⟩) ∧
    DerivedKey.from_encrypted_reply (.Aes256CtsHmacSha196 none []) none
        "R" "u" "p"
      = .ok (.Aes256CtsHmacSha196 ⟨"p", "Ru", 4096⟩ 4096 "Ru") :=
  ⟨(c6_salt_and_iteration_fallback none []
      (some [⟨.AES256_CTS_HMAC_SHA1_96, some "S", some [0, 0, 0, 1]⟩])
      "R" "u" "p").1
      (DerivedKey.Aes256CtsHmacSha196 ⟨"p", "S", 1⟩ 1 "S") (by decide),
   (c6_salt_and_iteration_fallback none [] none "R" "u" "p").2 rfl⟩

/-- Claim C2 (the code panics where the spec requires a typed error):
a KDC-REP with pvno 4 drives KerberosAsRep::try_from into todo!(), a
KRB-ERROR with pvno 4 drives KerberosErrRep::try_from into todo!(),
and an AS-REP whose inner conversion fails (here: msg_type 13 inside
an application-11 envelope) drives the Decode impl's .expect(..) into
a panic. -/
theorem c2_decode_panics_on_untrusted_input :
    ProtoRs.KerberosAsRep.try_from
        ⟨4, 11, ⟨"EXAMPLE.COM"⟩, ⟨1, [⟨"alice"⟩]⟩, ⟨18, none, []⟩⟩
      = .panicked ∧
    ProtoRs.KerberosErrRep.try_from (fun _ => .error ()) (fun _ => .error ())
        ⟨4, 30, 25, none⟩
      = .panicked ∧
    ProtoRs.KerberosResponse.decode
        (fun _ => .ok ⟨5, 13, ⟨"EXAMPLE.COM"⟩, ⟨1, [⟨"alice"⟩]⟩, ⟨18, none, []⟩⟩)
        (fun _ => .error ()) (fun _ => .error ()) (fun _ => .error ())
        (.application true 11) []
      = .panicked :=
  ⟨rfl, rfl, rfl⟩

/-- Claim C10: converting a Name with valid IA5 components to the wire
pair (PrincipalName, Realm) and back yields the original Name. -/
theorem c10_name_roundtrip (n : Name) (h : n.validIA5 = true) :
    (Name.try_into_wire n).bind Name.try_from_wire = .ok n := by
  cases n with
  | Principal name realm =>
    simp only [Name.validIA5, Bool.and_eq_true] at h
    obtain ⟨h1, h2⟩ := h
    simp [Name.try_into_wire, ia5_unwrap, Ia5String.new, h1, h2,
          Outcome.bind, Name.try_from_wire]
  | SrvInst service realm =>
    simp only [Name.validIA5, Bool.and_eq_true] at h
    obtain ⟨h1, h2⟩ := h
    simp [Name.try_into_wire, ia5_unwrap, Ia5String.new, h1, h2,
          Outcome.bind, Name.try_from_wire]
  | SrvHst service host realm =>
    simp only [Name.validIA5, Bool.and_eq_true] at h
    obtain ⟨⟨h1, h2⟩, h3⟩ := h
    simp [Name.try_into_wire, ia5_unwrap, Ia5String.new, h1, h2, h3,
          Outcome.bind, Name.try_from_wire]

/-- Witness for C10 at a concrete two-component service name. -/
theorem c10_witness :
    (Name.try_into_wire (.SrvHst "HOST" "web.example.com" "EXAMPLE.COM")).bind
        Name.try_from_wire
      = .ok (.SrvHst "HOST" "web.example.com" "EXAMPLE.COM") :=
  c10_name_roundtrip (.SrvHst "HOST" "web.example.com" "EXAMPLE.COM") (by decide)

/-- Elements of an insertion come from the inserted element or the list. -/
theorem mem_insert_by (cmp : α → α → Ordering) (x : α) (l : List α) :
    ∀ y ∈ insert_by cmp x l, y = x ∨ y ∈ l := by
  induction l with
  | nil =>
    intro y hy
    simp [insert_by] at hy
    exact Or.inl hy
  | cons z zs ih =>
    intro y hy
    simp only [insert_by] at hy
    cases hcmp : cmp x z with
    | gt =>
      rw [hcmp] at hy
      simp only [List.mem_cons] at hy
      rcases hy with rfl | hy
      · exact Or.inr (List.mem_cons_self _ _)
      · rcases ih y hy with rfl | hmem
        · exact Or.inl rfl
        · exact Or.inr (List.mem_cons_of_mem _ hmem)
    | lt =>
      rw [hcmp] at hy
      simp only [List.mem_cons] at hy
      rcases hy with rfl | hy
      · exact Or.inl rfl
      · exact Or.inr (List.mem_cons.mpr hy)
    | eq =>
      rw [hcmp] at hy
      simp only [List.mem_cons] at hy
      rcases hy with rfl | hy
      · exact Or.inl rfl
      · exact Or.inr (List.mem_cons.mpr hy)

/-- The modelled sort_unstable_by only permutes its input. -/
theorem mem_sort_unstable_by (cmp : α → α → Ordering) (l : List α) :
    ∀ y ∈ sort_unstable_by cmp l, y ∈ l := by
  induction l with
  | nil => simp [sort_unstable_by]
  | cons z zs ih =>
    intro y hy
    simp only [sort_unstable_by] at hy
    rcases mem_insert_by cmp z _ y hy with rfl | hmem
    · exact List.mem_cons_self _ _
    · exact List.mem_cons_of_mem _ (ih y hmem)

/-- Every hint retained by the ETYPE-INFO2 collection loop has the one
supported encryption type. -/
theorem collect_etype_info2_aes256 (entries : List ETypeInfo2Entry) :
    ∀ x ∈ collect_etype_info2 entries,
      x.etype = EncryptionType.AES256_CTS_HMAC_SHA1_96 := by
  intro x hx
  simp only [collect_etype_info2, List.mem_filterMap] at hx
  obtain ⟨e, _, he⟩ := hx
  cases h1 : EncryptionType.try_from e.etype with
  | error u => rw [h1] at he; simp at he
  | ok t =>
    rw [h1] at he
    cases t with
    | AES256_CTS_HMAC_SHA1_96 =>
      simp only [Option.some.injEq] at he
      rw [← he]
    | AES128_CTS_HMAC_SHA1_96 => simp at he
    | AES128_CTS_HMAC_SHA256_128 => simp at he
    | AES256_CTS_HMAC_SHA384_192 => simp at he
    | DES3_CBC_SHA1 => simp at he
    | RC4_HMAC => simp at he

/-- The PA-DATA accumulation loop preserves the all-AES256 invariant of
the hint list. -/
theorem fold_etype_info2_aes256
    (eiFromDer : List UInt8 → Except Unit (List ETypeInfo2Entry)) :
    ∀ (pavec : List PaData) (acc out : PreauthData),
      PreauthData.fold eiFromDer pavec acc = .ok out →
      (∀ x ∈ acc.etype_info2, x.etype = EncryptionType.AES256_CTS_HMAC_SHA1_96) →
      ∀ x ∈ out.etype_info2, x.etype = EncryptionType.AES256_CTS_HMAC_SHA1_96 := by
  intro pavec
  induction pavec with
  | nil =>
    intro acc out h hacc
    simp only [PreauthData.fold, Except.ok.injEq] at h
    subst h
    exact hacc
  | cons pd rest ih =>
    intro acc out h hacc
    simp only [PreauthData.fold] at h
    cases hpt : PaDataType.try_from pd.padata_type with
    | error e =>
      rw [hpt] at h
      exact ih _ _ h hacc
    | ok padt =>
      rw [hpt] at h
      cases padt with
      | PaEncTimestamp => exact ih _ _ h hacc
      | PaFxFast => exact ih _ _ h hacc
      | PaFxCookie => exact ih _ _ h hacc
      | PaEtypeInfo2 =>
        cases hei : eiFromDer pd.padata_value with
        | error u => rw [hei] at h; simp at h
        | ok entries =>
          rw [hei] at h
          refine ih _ _ h ?_
          intro x hx
          rcases List.mem_append.mp hx with h1 | h2
          · exact hacc x h1
          · exact collect_etype_info2_aes256 entries x h2

/-- The strength ranking stated by the spec: AES256-CTS-HMAC-SHA1-96
above AES128-CTS-HMAC-SHA1-96 above everything else. -/
def cryptographic_strength : EncryptionType → Nat
  | .AES256_CTS_HMAC_SHA1_96 => 2
  | .AES128_CTS_HMAC_SHA1_96 => 1
  | _ => 0

/-- A list all of whose hints share one etype is pairwise ordered by
any strength ranking. -/
theorem pairwise_of_all_aes256 (l : List EtypeInfo2)
    (h : ∀ x ∈ l, x.etype = EncryptionType.AES256_CTS_HMAC_SHA1_96) :
    List.Pairwise (fun a b =>
      cryptographic_strength b.etype ≤ cryptographic_strength a.etype) l := by
  induction l with
  | nil => exact List.Pairwise.nil
  | cons x xs ih =>
    refine List.Pairwise.cons ?_ (ih ?_)
    · intro y hy
      rw [h x (List.mem_cons_self x xs), h y (List.mem_cons_of_mem _ hy)]
    · intro y hy
      exact h y (List.mem_cons_of_mem _ hy)

/-- Claim C3: after parsing a pre-auth data sequence into negotiation
state, the etype_info2 hint list is sorted strongest-first (AES256
above AES128 above anything else); in fact every retained hint is
AES256-CTS-HMAC-SHA1-96, so in particular the first selected hint is
always AES256 regardless of input order. -/
theorem c3_etype_hints_sorted_strongest_first
    (eiFromDer : List UInt8 → Except Unit (List ETypeInfo2Entry))
    (pavec : List PaData) (pd : PreauthData)
    (h : PreauthData.try_from eiFromDer pavec = .ok pd) :
    List.Pairwise (fun a b =>
      cryptographic_strength b.etype ≤ cryptographic_strength a.etype)
      pd.etype_info2 ∧
    (∀ x ∈ pd.etype_info2,
      x.etype = EncryptionType.AES256_CTS_HMAC_SHA1_96) ∧
    (∀ x, pd.etype_info2.head? = some x →
      x.etype = EncryptionType.AES256_CTS_HMAC_SHA1_96) := by
  unfold PreauthData.try_from at h
  cases hf : PreauthData.fold eiFromDer pavec ⟨false, false, none, []⟩ with
  | error e => rw [hf] at h; simp [Except.map] at h
  | ok acc =>
    rw [hf] at h
    simp only [Except.map, Except.ok.injEq] at h
    subst h
    have hall : ∀ x ∈ sort_unstable_by sort_cryptographic_strength
        acc.etype_info2, x.etype = EncryptionType.AES256_CTS_HMAC_SHA1_96 := by
      intro x hx
      exact fold_etype_info2_aes256 eiFromDer pavec _ acc hf (by simp) x
        (mem_sort_unstable_by _ _ x hx)
    refine ⟨pairwise_of_all_aes256 _ hall, hall, ?_⟩
    intro x hx
    cases hl : sort_unstable_by sort_cryptographic_strength acc.etype_info2 with
    | nil => rw [hl] at hx; simp at hx
    | cons a as =>
      rw [hl] at hx
      simp only [List.head?_cons, Option.some.injEq] at hx
      subst hx
      exact hall a (hl ▸ List.mem_cons_self a as)

/-- Witness for C3 at the claim's scenario: hints with etypes
[AES128 (17), AES256 (18), unknown (99)] in that input order; the
parsed list contains exactly the AES256 hint, which is first. -/
theorem c3_witness :
    List.Pairwise (fun a b =>
      cryptographic_strength b.etype ≤ cryptographic_strength a.etype)
      [(⟨.AES256_CTS_HMAC_SHA1_96, some "EXAMPLE.COMalice", none⟩ : EtypeInfo2)] ∧
    (∀ x ∈ [(⟨.AES256_CTS_HMAC_SHA1_96, some "EXAMPLE.COMalice", none⟩ : EtypeInfo2)],
      x.etype = EncryptionType.AES256_CTS_HMAC_SHA1_96) ∧
    (∀ x, [(⟨.AES256_CTS_HMAC_SHA1_96, some "EXAMPLE.COMalice", none⟩ : EtypeInfo2)].head?
        = some x → x.etype = EncryptionType.AES256_CTS_HMAC_SHA1_96) :=
  c3_etype_hints_sorted_strongest_first
    (fun _ => .ok [⟨17, none, none⟩, ⟨18, some ⟨"EXAMPLE.COMalice"⟩, none⟩,
                   ⟨99, none, none⟩])
    [⟨19, [0]⟩]
    ⟨false, false, none, [⟨.AES256_CTS_HMAC_SHA1_96, some "EXAMPLE.COMalice", none⟩]⟩
    (by decide)

/-- Claim C1: a decoded KRB-ERROR (pvno 5, msg_type KRB_ERROR) whose
error code maps to KDC_ERR_PREAUTH_REQUIRED and whose error-data is
present and decodes as a pre-auth-data sequence that parses into
negotiation state decodes to KerberosResponse::PaRep carrying that
state; with that error code the decoder can never produce ErrRep; and
every other recognized error code decodes to ErrRep with that code. -/
theorem c1_preauth_required_disambiguation
    (decodeKdcRep : List UInt8 → Except Unit ProtoRs.KdcRep)
    (decodeKrbError : List UInt8 → Except Unit ProtoRs.Asn1KrbError)
    (mdFromDer : List UInt8 → Except Unit (List PaData))
    (eiFromDer : List UInt8 → Except Unit (List ETypeInfo2Entry))
    (body : List UInt8) (e : ProtoRs.Asn1KrbError)
    (hdec : decodeKrbError body = .ok e)
    (hp : e.pvno = 5) (hm : e.msg_type = 30) :
    (∀ edata pavec pa_rep,
      KrbErrorCode.try_from e.error_code = .ok .KdcErrPreauthRequired →
      e.error_data = some edata →
      mdFromDer edata = .ok pavec →
      ProtoRs.KerberosPaRep.try_from eiFromDer pavec = .ok pa_rep →
      ProtoRs.KerberosResponse.decode decodeKdcRep decodeKrbError mdFromDer
        eiFromDer (.application true 30) body = .ok (.PaRep pa_rep)) ∧
    (KrbErrorCode.try_from e.error_code = .ok .KdcErrPreauthRequired →
      ∀ c, ProtoRs.KerberosResponse.decode decodeKdcRep decodeKrbError mdFromDer
        eiFromDer (.application true 30) body ≠ .ok (.ErrRep c)) ∧
    (∀ c, KrbErrorCode.try_from e.error_code = .ok c →
      c ≠ .KdcErrPreauthRequired →
      ProtoRs.KerberosResponse.decode decodeKdcRep decodeKrbError mdFromDer
        eiFromDer (.application true 30) body = .ok (.ErrRep c)) := by
  have hmt : KrbMessageType.try_from e.msg_type = .ok .KrbError := by
    rw [hm]; decide
  refine ⟨?_, ?_, ?_⟩
  · intro edata pavec pa_rep hc hed hmd hpa
    simp [ProtoRs.KerberosResponse.decode, hdec,
          ProtoRs.KerberosErrRep.try_from, hp, hmt, hc, hed, hmd, hpa]
  · intro hc c
    simp only [ProtoRs.KerberosResponse.decode, hdec,
               ProtoRs.KerberosErrRep.try_from, hp, hmt, hc]
    cases hed : e.error_data with
    | none => simp
    | some edata =>
      cases hmd : mdFromDer edata with
      | error u => simp [hmd]
      | ok pavec =>
        cases hpa : ProtoRs.KerberosPaRep.try_from eiFromDer pavec with
        | error u => simp [hmd, hpa]
        | ok pa_rep => simp [hmd, hpa]
  · intro c hc hne
    simp only [ProtoRs.KerberosResponse.decode, hdec,
               ProtoRs.KerberosErrRep.try_from, hp, hmt, hc]
    cases c <;> first | exact absurd rfl hne | simp

/-- Witness for C1: a PREAUTH_REQUIRED (25) error with decodable empty
pre-auth data, and a C_PRINCIPAL_UNKNOWN (6) error. -/
theorem c1_witness :
    ProtoRs.KerberosResponse.decode (fun _ => .error ())
        (fun _ => .ok ⟨5, 30, 25, some [1]⟩) (fun _ => .ok [])
        (fun _ => .error ()) (.application true 30) []
      = .ok (.PaRep ⟨false, false, none, []⟩) ∧
    ProtoRs.KerberosResponse.decode (fun _ => .error ())
        (fun _ => .ok ⟨5, 30, 6, none⟩) (fun _ => .ok [])
        (fun _ => .error ()) (.application true 30) []
      = .ok (.ErrRep .KdcErrCPrincipalUnknown) :=
  ⟨(c1_preauth_required_disambiguation (fun _ => .error ())
      (fun _ => .ok ⟨5, 30, 25, some [1]⟩) (fun _ => .ok [])
      (fun _ => .error ()) [] ⟨5, 30, 25, some [1]⟩ rfl rfl rfl).1
      [1] [] ⟨false, false, none, []⟩ (by decide) rfl rfl (by decide),
   (c1_preauth_required_disambiguation (fun _ => .error ())
      (fun _ => .ok ⟨5, 30, 6, none⟩) (fun _ => .ok [])
      (fun _ => .error ()) [] ⟨5, 30, 6, none⟩ rfl rfl rfl).2.2
      .KdcErrCPrincipalUnknown (by decide) (by decide)⟩

/-- Claim C7: decrypt_enc_kdc_rep depends on the decrypt primitive only
through its behaviour at key-usage 3 (it always decrypts with usage 3),
depends on the DER decoder only through the tag-stripped inner part
(either wire tag variant is accepted and both map to the same result),
and on success the decrypted part is converted by KdcReplyPart's
conversion. -/
theorem c7_decrypt_enc_kdc_rep_usage_three_and_relaxed_tag :
    (∀ (decA decB : Aes256Key → List UInt8 → Int → Except KrbError (List UInt8))
       (tFromDer : List UInt8 → Except Unit TaggedEncKdcRepPart)
       (ed : EncryptedData) (bk : DerivedKey),
      (∀ k d, decA k d 3 = decB k d 3) →
      EncryptedData.decrypt_enc_kdc_rep decA tFromDer ed bk
        = EncryptedData.decrypt_enc_kdc_rep decB tFromDer ed bk) ∧
    (∀ (decA : Aes256Key → List UInt8 → Int → Except KrbError (List UInt8))
       (f g : List UInt8 → Except Unit TaggedEncKdcRepPart)
       (ed : EncryptedData) (bk : DerivedKey),
      (∀ d, (f d).map TaggedEncKdcRepPart.part
          = (g d).map TaggedEncKdcRepPart.part) →
      EncryptedData.decrypt_enc_kdc_rep decA f ed bk
        = EncryptedData.decrypt_enc_kdc_rep decA g ed bk) ∧
    (∀ (decA : Aes256Key → List UInt8 → Int → Except KrbError (List UInt8))
       (f : List UInt8 → Except Unit TaggedEncKdcRepPart)
       (ed : EncryptedData) (bk : DerivedKey) (d : List UInt8)
       (tagged : TaggedEncKdcRepPart),
      EncryptedData.decrypt_data decA ed bk 3 = .ok d →
      f d = .ok tagged →
      EncryptedData.decrypt_enc_kdc_rep decA f ed bk
        = KdcReplyPart.try_from tagged.part) := by
  refine ⟨?_, ?_, ?_⟩
  · intro decA decB tFromDer ed bk hagree
    cases ed with
    | Aes256CtsHmacSha196 kv data =>
      cases bk with
      | Aes256CtsHmacSha196 k i s =>
        simp only [EncryptedData.decrypt_enc_kdc_rep,
                   EncryptedData.decrypt_data]
        rw [hagree k data]
  · intro decA f g ed bk hfg
    simp only [EncryptedData.decrypt_enc_kdc_rep]
    cases hd : EncryptedData.decrypt_data decA ed bk 3 with
    | error e => rfl
    | ok d =>
      have hpart := hfg d
      cases hf : f d with
      | error u =>
        rw [hf] at hpart
        cases hg : g d with
        | error v => simp [hf, hg]
        | ok t2 => rw [hg] at hpart; simp [Except.map] at hpart
      | ok t =>
        rw [hf] at hpart
        cases hg : g d with
        | error v => rw [hg] at hpart; simp [Except.map] at hpart
        | ok t2 =>
          rw [hg] at hpart
          simp only [Except.map, Except.ok.injEq] at hpart
          simp [hf, hg, hpart]
  · intro decA f ed bk d tagged hdd hf
    simp [EncryptedData.decrypt_enc_kdc_rep, hdd, hf]

/-- Witness for C7: a one-hint oracle whose decode yields an
AS-REP-part; the result is the converted part. -/
theorem c7_witness :
    EncryptedData.decrypt_enc_kdc_rep (fun _ _ _ => .ok [])
        (fun _ => .ok (.EncAsRepPart
          ⟨⟨18, List.replicate 32 0⟩, ⟨2, [⟨"krbtgt"⟩]⟩, ⟨"EXAMPLE.COM"⟩,
           7, 0, none, none, none, 0, 0⟩))
        (.Aes256CtsHmacSha196 none [])
        (.Aes256CtsHmacSha196 ⟨"p", "s", 1⟩ 1 "s")
      = KdcReplyPart.try_from
          ⟨⟨18, List.replicate 32 0⟩, ⟨2, [⟨"krbtgt"⟩]⟩, ⟨"EXAMPLE.COM"⟩,
           7, 0, none, none, none, 0, 0⟩ :=
  c7_decrypt_enc_kdc_rep_usage_three_and_relaxed_tag.2.2
    (fun _ _ _ => .ok [])
    (fun _ => .ok (.EncAsRepPart
      ⟨⟨18, List.replicate 32 0⟩, ⟨2, [⟨"krbtgt"⟩]⟩, ⟨"EXAMPLE.COM"⟩,
       7, 0, none, none, none, 0, 0⟩))
    (.Aes256CtsHmacSha196 none [])
    (.Aes256CtsHmacSha196 ⟨"p", "s", 1⟩ 1 "s") []
    (.EncAsRepPart
      ⟨⟨18, List.replicate 32 0⟩, ⟨2, [⟨"krbtgt"⟩]⟩, ⟨"EXAMPLE.COM"⟩,
       7, 0, none, none, none, 0, 0⟩)
    rfl rfl

/-- C9 counterexample: a complete header declaring a 100000-byte
fragment (more than the configured 32768 maximum) with no body bytes
yields FrameTooLarge, not the "need more bytes" outcome the claim
demands for every complete header with a short body. -/
theorem c9_counterexample :
    codec_decode DEFAULT_MAX_SIZE [] [0x00, 0x01, 0x86, 0xA0]
      = .error .FrameTooLarge ∧
    codec_decode DEFAULT_MAX_SIZE [] [0x00, 0x01, 0x86, 0xA0]
      ≠ .ok (none, [], [0x00, 0x01, 0x86, 0xA0]) := by
  have hlt : DEFAULT_MAX_SIZE < frame_len 0x00 0x01 0x86 0xA0 := by decide
  have h : codec_decode DEFAULT_MAX_SIZE [] [0x00, 0x01, 0x86, 0xA0]
      = .error .FrameTooLarge := by
    rw [codec_decode, if_pos hlt]
  exact ⟨h, by rw [h]; decide⟩

/-- Claim C9 (amended): when the input buffer holds only a partial
4-byte header, or a complete header whose stated fragment length is
within the configured maximum but exceeds the available body bytes,
the decoder returns the "need more bytes" outcome (no error), leaving
the accumulated state and buffer untouched; an in-bounds check is
necessary because an over-maximum header is a FrameTooLarge error. -/
theorem c9_incomplete_input_waits :
    (∀ (max_size : Nat) (acc buf : List UInt8), buf.length < 4 →
      codec_decode max_size acc buf = .ok (none, acc, buf)) ∧
    (∀ (max_size : Nat) (acc : List UInt8) (b0 b1 b2 b3 : UInt8)
       (rest : List UInt8),
      frame_len b0 b1 b2 b3 ≤ max_size →
      rest.length < frame_len b0 b1 b2 b3 →
      codec_decode max_size acc (b0 :: b1 :: b2 :: b3 :: rest)
        = .ok (none, acc, b0 :: b1 :: b2 :: b3 :: rest)) := by
  constructor
  · intro max_size acc buf hlen
    match buf with
    | [] => rw [codec_decode]; simp
    | [a] => rw [codec_decode]; simp
    | [a, b] => rw [codec_decode]; simp
    | [a, b, c] => rw [codec_decode]; simp
    | a :: b :: c :: d :: t =>
      simp only [List.length_cons] at hlen
      omega
  · intro max_size acc b0 b1 b2 b3 rest hmax hshort
    rw [codec_decode, if_neg (by omega), if_pos hshort]

/-- Witness for C9 (amended): a 2-byte partial header, and a complete
header announcing 5 body bytes with only 2 available. -/
theorem c9_witness :
    codec_decode DEFAULT_MAX_SIZE [] [0x00, 0x01] = .ok (none, [], [0x00, 0x01]) ∧
    codec_decode DEFAULT_MAX_SIZE [] [0x00, 0x00, 0x00, 0x05, 0xAA, 0xBB]
      = .ok (none, [], [0x00, 0x00, 0x00, 0x05, 0xAA, 0xBB]) :=
  ⟨c9_incomplete_input_waits.1 DEFAULT_MAX_SIZE [] [0x00, 0x01] (by decide),
   c9_incomplete_input_waits.2 DEFAULT_MAX_SIZE [] 0x00 0x00 0x00 0x05
     [0xAA, 0xBB] (by decide) (by decide)⟩
